import Mathlib

/-!
Verification of the reservation / allocation engine of `rifa_multivendedor.py`.

The engine keeps two worksheets in a shared spreadsheet ledger:
`ventas` (confirmed sales) and `reservas` (temporary reservations).
We embed the ledger as two Lean lists and each engine operation
(`limpiar_reservas_expiradas`, `obtener_numeros_vendidos`,
`obtener_numeros_reservados`, `reservar_numero`, `confirmar_venta`,
`cancelar_reserva`) as a pure state transformer, translated line by line
from the Python source.  Timestamps (`datetime`) are modelled as natural
numbers: the source only ever compares them and adds a lease duration.
-/

namespace Rifa

/-- A row of the `ventas` worksheet: columns
`numero, comprador, telefono, vendedor, fecha_venta, timestamp`.
`fecha_venta` and `timestamp` are two renderings of the same instant
(`now.strftime(...)` and `now.isoformat()`), so both are the `Nat` time. -/
structure SaleRecord where
  numero : Nat
  comprador : String
  telefono : String
  vendedor : String
  fecha_venta : Nat
  timestamp : Nat
deriving DecidableEq, Repr

/-- A row of the `reservas` worksheet: columns
`numero, vendedor, timestamp_reserva, expira_en`. -/
structure ResRecord where
  numero : Nat
  vendedor : String
  timestamp_reserva : Nat
  expira_en : Nat
deriving DecidableEq, Repr

/-- The ledger: the records of the two worksheets, in sheet order. -/
structure Ledger where
  ventas : List SaleRecord
  reservas : List ResRecord
deriving DecidableEq, Repr

/-- A fresh ledger with no sales and no reservations. -/
def Ledger.empty : Ledger := ⟨[], []⟩

/-! ### `limpiar_reservas_expiradas` (reap)

The Python loop first collects the (1-based, header-offset) sheet rows
whose record satisfies `now > expira`, then deletes them back to front
(`for row_num in reversed(rows_to_delete): delete_rows(row_num)`).
We translate the loop literally on 0-based list indices (the `+2`
header/1-based offset cancels because `delete_rows` takes absolute sheet
positions) and prove below that it equals a `filter`. -/

/-- The 0-based indices of the reservation records with `now > expira_en`,
in ascending order — the `rows_to_delete` list of the source. -/
def filasExpiradas (records : List ResRecord) (now : Nat) : List Nat :=
  match records with
  | [] => []
  | r :: rs =>
      if now > r.expira_en then 0 :: (filasExpiradas rs now).map (· + 1)
      else (filasExpiradas rs now).map (· + 1)

/-- Delete the given ascending list of row indices from the back forward,
as the source's `reversed(rows_to_delete)` loop does. -/
def borrarFilas (l : List ResRecord) (rows : List Nat) : List ResRecord :=
  rows.foldr (fun i acc => acc.eraseIdx i) l

/-- `limpiar_reservas_expiradas`: remove every reservation row whose
expiry is strictly in the past (`now > expira`). -/
def limpiar_reservas_expiradas (st : Ledger) (now : Nat) : Ledger :=
  { st with reservas := borrarFilas st.reservas (filasExpiradas st.reservas now) }

/-! ### The worksheet-to-dict reads -/

/-- Semantics of the dict comprehension
`{int(r['numero']): r for r in records if r['numero']}`:
rows with falsy (`0`) `numero` are skipped, and a later row with the same
key overwrites an earlier one, so a lookup returns the last matching row. -/
def dictVendidos (l : List SaleRecord) (n : Nat) : Option SaleRecord :=
  if n = 0 then none else l.reverse.find? (fun s => s.numero = n)

/-- Same dict comprehension semantics for reservation rows. -/
def dictReservados (l : List ResRecord) (n : Nat) : Option ResRecord :=
  if n = 0 then none else l.reverse.find? (fun r => r.numero = n)

/-- `obtener_numeros_vendidos`: read the `ventas` worksheet into a dict
keyed by number.  A pure read (successful-read path). -/
def obtener_numeros_vendidos (st : Ledger) : Nat → Option SaleRecord :=
  dictVendidos st.ventas

/-- `obtener_numeros_reservados`: first runs
`limpiar_reservas_expiradas` (which deletes rows from the worksheet, so
the read mutates the ledger), then reads the remaining reservation rows
into a dict.  Returns the ledger after the embedded reap together with
the dict (successful-read path). -/
def obtener_numeros_reservados (st : Ledger) (now : Nat) : Ledger × (Nat → Option ResRecord) :=
  (limpiar_reservas_expiradas st now,
   dictReservados (limpiar_reservas_expiradas st now).reservas)

/-! ### The engine operations -/

/-- `cancelar_reserva`: scan the reservation rows in order and delete the
first row matching both the number and the seller (`break` after one). -/
def removeFirstRes (l : List ResRecord) (numero : Nat) (vendedor : String) : List ResRecord :=
  match l with
  | [] => []
  | r :: rs =>
      if r.numero = numero ∧ r.vendedor = vendedor then rs
      else r :: removeFirstRes rs numero vendedor

/-- `cancelar_reserva(numero, vendedor)`: deletes the first reservation
row matching `(numero, vendedor)` if any.  The Python function body has
no `return` statement on any path, so its returned value is always
`None`; we model that value as the second component, always `none`. -/
def cancelar_reserva (st : Ledger) (numero : Nat) (vendedor : String) :
    Ledger × Option (Bool × String) :=
  ({ st with reservas := removeFirstRes st.reservas numero vendedor }, none)

/-- `reservar_numero(numero, vendedor, minutos=5)` on the path where all
ledger accesses succeed.  Both dicts are computed before any check (so
the reap embedded in `obtener_numeros_reservados` always runs), then:
already sold → failure; present in the reservation dict (whoever the
holder is) → failure naming the holder; otherwise append a reservation
row expiring at `now + minutos`. -/
def reservar_numero (st : Ledger) (now : Nat) (numero : Nat) (vendedor : String)
    (minutos : Nat) : Ledger × Bool × String :=
  if (obtener_numeros_vendidos st numero).isSome then
    ((obtener_numeros_reservados st now).1, false, "Número ya vendido")
  else
    match (obtener_numeros_reservados st now).2 numero with
    | some r =>
        ((obtener_numeros_reservados st now).1, false,
         "Número reservado por " ++ r.vendedor)
    | none =>
        ({ (obtener_numeros_reservados st now).1 with
            reservas := (obtener_numeros_reservados st now).1.reservas ++
              [⟨numero, vendedor, now, now + minutos⟩] },
         true, "Número reservado exitosamente")

/-- `confirmar_venta(numero, comprador, telefono, vendedor)` on the path
where all ledger accesses succeed: read the (reaped) reservation dict;
no entry → failure; entry held by another seller → failure; otherwise
append the sale row and then delete the reservation via
`cancelar_reserva`. -/
def confirmar_venta (st : Ledger) (now : Nat) (numero : Nat)
    (comprador telefono vendedor : String) : Ledger × Bool × String :=
  match (obtener_numeros_reservados st now).2 numero with
  | none => ((obtener_numeros_reservados st now).1, false, "Número no está reservado")
  | some r =>
      if r.vendedor ≠ vendedor then
        ((obtener_numeros_reservados st now).1, false,
         "No tienes la reserva de este número")
      else
        ((cancelar_reserva
            { (obtener_numeros_reservados st now).1 with
                ventas := (obtener_numeros_reservados st now).1.ventas ++
                  [⟨numero, comprador, telefono, vendedor, now, now⟩] }
            numero vendedor).1,
         true, "Venta confirmada exitosamente")

/-! ### Operation sequences -/

/-- One completed engine operation, with the wall-clock instant at which
it ran.  Parameters are unconstrained: any caller-supplied values. -/
inductive Op where
  | reservar (now numero : Nat) (vendedor : String) (minutos : Nat)
  | confirmar (now numero : Nat) (comprador telefono vendedor : String)
  | cancelar (numero : Nat) (vendedor : String)
  | limpiar (now : Nat)
deriving Repr

/-- The ledger state after running one operation. -/
def applyOp (st : Ledger) : Op → Ledger
  | .reservar now numero vendedor minutos => (reservar_numero st now numero vendedor minutos).1
  | .confirmar now numero c tel vend => (confirmar_venta st now numero c tel vend).1
  | .cancelar numero vend => (cancelar_reserva st numero vend).1
  | .limpiar now => limpiar_reservas_expiradas st now

/-- The ledger state after a finite sequence of operations. -/
def applyOps (st : Ledger) (ops : List Op) : Ledger :=
  ops.foldl applyOp st

/-! ### Display classification (`mostrar_grilla_numeros`) -/

/-- The three colours of the grid. -/
inductive Estado where
  | vendido
  | reservado
  | disponible
deriving DecidableEq, Repr

/-- The grid's classification of one number: the `if numero in
numeros_vendidos / elif numero in numeros_reservados / else` chain —
a sale always wins over a (possibly stale) reservation. -/
def estado_numero (vendidos : Nat → Option SaleRecord)
    (reservados : Nat → Option ResRecord) (numero : Nat) : Estado :=
  if (vendidos numero).isSome then .vendido
  else if (reservados numero).isSome then .reservado
  else .disponible

/-- `numeros_disponibles` as computed by the sale flow (`proceso_venta`):
every `i` in `range(1, 101)` that is in neither dict. -/
def numeros_disponibles (vendidos : Nat → Option SaleRecord)
    (reservados : Nat → Option ResRecord) : List Nat :=
  (List.range' 1 100).filter (fun i => (vendidos i).isNone ∧ (reservados i).isNone)

/-! ### Failure paths of the ledger accessor

`obtener_numeros_vendidos` and `obtener_numeros_reservados` wrap their
worksheet read in `try: ... except: return {}` — when the read raises
(ledger unavailable) they return the *empty dict*.  In
`obtener_numeros_reservados` the embedded reap catches its own
exceptions, so on a failed read the ledger is unchanged and the dict is
empty.  `cancelar_reserva` catches a failing `delete_rows` and returns
normally, leaving the row in place. -/

/-- `obtener_numeros_vendidos` when `get_all_records()` raises: the bare
`except` returns `{}`, i.e. every number looks unsold. -/
def obtener_numeros_vendidos_readFails : Nat → Option SaleRecord :=
  fun _ => none

/-- `obtener_numeros_reservados` when `get_all_records()` raises: the
bare `except` returns `{}`; no row was deleted, so the ledger stands. -/
def obtener_numeros_reservados_readFails (st : Ledger) :
    Ledger × (Nat → Option ResRecord) :=
  (st, fun _ => none)

/-- `reservar_numero` when both worksheet reads raise but the final
`append_row` succeeds: the two membership checks run against empty
dicts. Same control flow as `reservar_numero`, with the failed reads. -/
def reservar_numero_readFails (st : Ledger) (now : Nat) (numero : Nat)
    (vendedor : String) (minutos : Nat) : Ledger × Bool × String :=
  if (obtener_numeros_vendidos_readFails numero).isSome then
    ((obtener_numeros_reservados_readFails st).1, false, "Número ya vendido")
  else
    match (obtener_numeros_reservados_readFails st).2 numero with
    | some r =>
        ((obtener_numeros_reservados_readFails st).1, false,
         "Número reservado por " ++ r.vendedor)
    | none =>
        ({ (obtener_numeros_reservados_readFails st).1 with
            reservas := (obtener_numeros_reservados_readFails st).1.reservas ++
              [⟨numero, vendedor, now, now + minutos⟩] },
         true, "Número reservado exitosamente")

/-- `cancelar_reserva` when the underlying `delete_rows` raises: the
internal `except` swallows the exception (a warning is shown), the row
is not removed, and the function returns `None` normally. -/
def cancelar_reserva_deleteFails (st : Ledger) (_numero : Nat) (_vendedor : String) :
    Ledger × Option (Bool × String) :=
  (st, none)

/-- `confirmar_venta` when the ownership checks pass and the sale append
succeeds but the embedded reservation delete raises: identical to
`confirmar_venta` except that the `cancelar_reserva` step leaves the
ledger as it was. -/
def confirmar_venta_deleteFails (st : Ledger) (now : Nat) (numero : Nat)
    (comprador telefono vendedor : String) : Ledger × Bool × String :=
  match (obtener_numeros_reservados st now).2 numero with
  | none => ((obtener_numeros_reservados st now).1, false, "Número no está reservado")
  | some r =>
      if r.vendedor ≠ vendedor then
        ((obtener_numeros_reservados st now).1, false,
         "No tienes la reserva de este número")
      else
        ((cancelar_reserva_deleteFails
            { (obtener_numeros_reservados st now).1 with
                ventas := (obtener_numeros_reservados st now).1.ventas ++
                  [⟨numero, comprador, telefono, vendedor, now, now⟩] }
            numero vendedor).1,
         true, "Venta confirmada exitosamente")

/-! ## Basic lemmas -/

/-- Deleting an ascending index list shifted by one from a cons leaves
the head untouched. -/
theorem borrarFilas_cons_map (r : ResRecord) (l : List ResRecord) (rows : List Nat) :
    borrarFilas (r :: l) (rows.map (· + 1)) = r :: borrarFilas l rows := by
  induction rows with
  | nil => rfl
  | cons i rows ih =>
      simp only [borrarFilas, List.map_cons, List.foldr_cons] at *
      rw [ih]
      rfl

/-- The reap loop — collect expired row indices, delete them from the
back forward — is extensionally the filter keeping non-expired rows. -/
theorem borrarFilas_filasExpiradas (l : List ResRecord) (now : Nat) :
    borrarFilas l (filasExpiradas l now) = l.filter (fun r => ¬ now > r.expira_en) := by
  induction l with
  | nil => rfl
  | cons r rs ih =>
      by_cases h : now > r.expira_en
      · have h1 : filasExpiradas (r :: rs) now =
            0 :: (filasExpiradas rs now).map (· + 1) := by
          simp [filasExpiradas, h]
        have h2 : borrarFilas (r :: rs) (0 :: (filasExpiradas rs now).map (· + 1)) =
            (borrarFilas (r :: rs) ((filasExpiradas rs now).map (· + 1))).eraseIdx 0 := rfl
        rw [h1, h2, borrarFilas_cons_map, List.filter_cons]
        rw [if_neg (by simp [h])]
        exact ih
      · have h1 : filasExpiradas (r :: rs) now = (filasExpiradas rs now).map (· + 1) := by
          simp [filasExpiradas, h]
        rw [h1, borrarFilas_cons_map, List.filter_cons, if_pos (by simp [h]), ih]

/-- `limpiar_reservas_expiradas` in filter form. -/
theorem limpiar_reservas (st : Ledger) (now : Nat) :
    limpiar_reservas_expiradas st now =
      ⟨st.ventas, st.reservas.filter (fun r => ¬ now > r.expira_en)⟩ := by
  simp [limpiar_reservas_expiradas, borrarFilas_filasExpiradas]

@[simp] theorem limpiar_ventas (st : Ledger) (now : Nat) :
    (limpiar_reservas_expiradas st now).ventas = st.ventas := by
  rw [limpiar_reservas]

@[simp] theorem limpiar_reservas_filter (st : Ledger) (now : Nat) :
    (limpiar_reservas_expiradas st now).reservas =
      st.reservas.filter (fun r => now ≤ r.expira_en) := by
  rw [limpiar_reservas]
  exact List.filter_congr (fun r _ => by simp [Nat.not_lt])

@[simp] theorem obtener_reservados_fst (st : Ledger) (now : Nat) :
    (obtener_numeros_reservados st now).1 = limpiar_reservas_expiradas st now := rfl

@[simp] theorem obtener_reservados_snd (st : Ledger) (now : Nat) :
    (obtener_numeros_reservados st now).2 =
      dictReservados (limpiar_reservas_expiradas st now).reservas := rfl

/-! ### Dict lemmas -/

@[simp] theorem dictReservados_zero (l : List ResRecord) : dictReservados l 0 = none := by
  simp [dictReservados]

@[simp] theorem dictVendidos_zero (l : List SaleRecord) : dictVendidos l 0 = none := by
  simp [dictVendidos]

theorem dictReservados_some {l : List ResRecord} {n : Nat} {r : ResRecord}
    (h : dictReservados l n = some r) : r ∈ l ∧ r.numero = n ∧ n ≠ 0 := by
  by_cases hn : n = 0
  · simp [hn] at h
  · unfold dictReservados at h
    rw [if_neg hn] at h
    refine ⟨List.mem_reverse.mp (List.mem_of_find?_eq_some h), ?_, hn⟩
    simpa using List.find?_some h

theorem dictVendidos_some {l : List SaleRecord} {n : Nat} {s : SaleRecord}
    (h : dictVendidos l n = some s) : s ∈ l ∧ s.numero = n ∧ n ≠ 0 := by
  by_cases hn : n = 0
  · simp [hn] at h
  · unfold dictVendidos at h
    rw [if_neg hn] at h
    refine ⟨List.mem_reverse.mp (List.mem_of_find?_eq_some h), ?_, hn⟩
    simpa using List.find?_some h

theorem dictReservados_none_iff {l : List ResRecord} {n : Nat} (hn : n ≠ 0) :
    dictReservados l n = none ↔ ∀ r ∈ l, r.numero ≠ n := by
  simp [dictReservados, hn, List.find?_eq_none]

theorem dictVendidos_none_iff {l : List SaleRecord} {n : Nat} (hn : n ≠ 0) :
    dictVendidos l n = none ↔ ∀ s ∈ l, s.numero ≠ n := by
  simp [dictVendidos, hn, List.find?_eq_none]

/-- Appending a matching row makes the dict hold it (last writer wins). -/
theorem dictVendidos_append_last {l : List SaleRecord} {s : SaleRecord} {n : Nat}
    (hn : n ≠ 0) (hs : s.numero = n) : dictVendidos (l ++ [s]) n = some s := by
  unfold dictVendidos
  rw [if_neg hn]
  simp only [List.reverse_append, List.reverse_cons, List.reverse_nil, List.nil_append,
    List.cons_append, List.nil_append]
  exact List.find?_cons_of_pos _ (by simp [hs])

/-! ### Per-number record filters -/

/-- The sale rows carrying a given number. -/
def salesFor (l : List SaleRecord) (n : Nat) : List SaleRecord :=
  l.filter (fun s => s.numero = n)

/-- The reservation rows carrying a given number. -/
def resFor (l : List ResRecord) (n : Nat) : List ResRecord :=
  l.filter (fun r => r.numero = n)

theorem salesFor_eq_nil_iff {l : List SaleRecord} {n : Nat} :
    salesFor l n = [] ↔ ∀ s ∈ l, s.numero ≠ n := by
  simp [salesFor, List.filter_eq_nil_iff]

theorem resFor_eq_nil_iff {l : List ResRecord} {n : Nat} :
    resFor l n = [] ↔ ∀ r ∈ l, r.numero ≠ n := by
  simp [resFor, List.filter_eq_nil_iff]

theorem mem_salesFor {l : List SaleRecord} {n : Nat} {s : SaleRecord} :
    s ∈ salesFor l n ↔ s ∈ l ∧ s.numero = n := by
  simp [salesFor, List.mem_filter]

theorem mem_resFor {l : List ResRecord} {n : Nat} {r : ResRecord} :
    r ∈ resFor l n ↔ r ∈ l ∧ r.numero = n := by
  simp [resFor, List.mem_filter]

theorem salesFor_append (l₁ l₂ : List SaleRecord) (n : Nat) :
    salesFor (l₁ ++ l₂) n = salesFor l₁ n ++ salesFor l₂ n := by
  simp [salesFor, List.filter_append]

theorem resFor_append (l₁ l₂ : List ResRecord) (n : Nat) :
    resFor (l₁ ++ l₂) n = resFor l₁ n ++ resFor l₂ n := by
  simp [resFor, List.filter_append]

theorem salesFor_singleton_of_eq {s : SaleRecord} {n : Nat} (h : s.numero = n) :
    salesFor [s] n = [s] := by
  simp [salesFor, List.filter, h]

theorem salesFor_singleton_of_ne {s : SaleRecord} {n : Nat} (h : s.numero ≠ n) :
    salesFor [s] n = [] := by
  simp [salesFor, List.filter, h]

theorem resFor_singleton_of_eq {r : ResRecord} {n : Nat} (h : r.numero = n) :
    resFor [r] n = [r] := by
  simp [resFor, List.filter, h]

theorem resFor_singleton_of_ne {r : ResRecord} {n : Nat} (h : r.numero ≠ n) :
    resFor [r] n = [] := by
  simp [resFor, List.filter, h]

theorem eq_singleton_of_mem_of_length_le_one {α : Type _} {l : List α} {a : α}
    (h : a ∈ l) (hl : l.length ≤ 1) : l = [a] := by
  match l, h with
  | [x], h => simp at h; rw [h]
  | x :: y :: t, _ => simp at hl

/-! ### `removeFirstRes` lemmas -/

theorem removeFirstRes_sublist (l : List ResRecord) (n : Nat) (v : String) :
    (removeFirstRes l n v).Sublist l := by
  induction l with
  | nil => simp [removeFirstRes]
  | cons x xs ih =>
      simp only [removeFirstRes]
      by_cases hx : x.numero = n ∧ x.vendedor = v
      · rw [if_pos hx]; exact List.sublist_cons_self x xs
      · rw [if_neg hx]; exact ih.cons₂ x

theorem removeFirstRes_of_no_match {l : List ResRecord} {n : Nat} {v : String}
    (h : ∀ r ∈ l, ¬(r.numero = n ∧ r.vendedor = v)) : removeFirstRes l n v = l := by
  induction l with
  | nil => rfl
  | cons x xs ih =>
      simp only [removeFirstRes]
      rw [if_neg (h x (List.mem_cons_self x xs)), ih]
      intro r hr
      exact h r (List.mem_cons_of_mem x hr)

theorem mem_removeFirstRes_of_ne_vendedor {l : List ResRecord} {n : Nat} {v : String}
    {r : ResRecord} (hr : r ∈ l) (hne : r.vendedor ≠ v) : r ∈ removeFirstRes l n v := by
  induction l with
  | nil => simp at hr
  | cons x xs ih =>
      simp only [removeFirstRes]
      by_cases hx : x.numero = n ∧ x.vendedor = v
      · rw [if_pos hx]
        rcases List.mem_cons.mp hr with hrx | hrxs
        · exact absurd (hrx ▸ hx.2) hne
        · exact hrxs
      · rw [if_neg hx]
        rcases List.mem_cons.mp hr with hrx | hrxs
        · exact hrx ▸ List.mem_cons_self x _
        · exact List.mem_cons_of_mem x (ih hrxs)

/-- If the only reservation row for `n` is `r` and it belongs to `v`,
then `cancelar_reserva`'s scan removes it: no row for `n` survives. -/
theorem resFor_removeFirstRes {l : List ResRecord} {n : Nat} {v : String} {r : ResRecord}
    (h : resFor l n = [r]) (hv : r.vendedor = v) :
    resFor (removeFirstRes l n v) n = [] := by
  induction l with
  | nil => simp [resFor] at h
  | cons x xs ih =>
      by_cases hx : x.numero = n
      · have hcons : resFor (x :: xs) n = x :: resFor xs n := by
          simp [resFor, List.filter_cons, hx]
        rw [hcons] at h
        obtain ⟨hxr, hrest⟩ : x = r ∧ resFor xs n = [] := by simpa using h
        have hxv : x.vendedor = v := hxr ▸ hv
        simp only [removeFirstRes]
        rw [if_pos ⟨hx, hxv⟩]
        exact hrest
      · have hcons : resFor (x :: xs) n = resFor xs n := by
          simp [resFor, List.filter_cons, hx]
        rw [hcons] at h
        simp only [removeFirstRes]
        by_cases hxv : x.numero = n ∧ x.vendedor = v
        · exact absurd hxv.1 hx
        · rw [if_neg hxv]
          have : resFor (x :: removeFirstRes xs n v) n = resFor (removeFirstRes xs n v) n := by
            simp [resFor, List.filter_cons, hx]
          rw [this]
          exact ih h

/-! ### Branch characterizations of the engine operations -/

theorem reservar_of_sold {st : Ledger} {now numero : Nat} {v : String} {m : Nat}
    (h : (obtener_numeros_vendidos st numero).isSome) :
    reservar_numero st now numero v m =
      (limpiar_reservas_expiradas st now, false, "Número ya vendido") := by
  simp [reservar_numero, h]

theorem reservar_of_reserved {st : Ledger} {now numero : Nat} {v : String} {m : Nat}
    {r : ResRecord} (hv : obtener_numeros_vendidos st numero = none)
    (hr : (obtener_numeros_reservados st now).2 numero = some r) :
    reservar_numero st now numero v m =
      (limpiar_reservas_expiradas st now, false, "Número reservado por " ++ r.vendedor) := by
  simp only [obtener_reservados_snd, limpiar_reservas_filter] at hr
  simp [reservar_numero, hv, hr]

theorem reservar_of_free {st : Ledger} {now numero : Nat} {v : String} {m : Nat}
    (hv : obtener_numeros_vendidos st numero = none)
    (hr : (obtener_numeros_reservados st now).2 numero = none) :
    reservar_numero st now numero v m =
      ({ limpiar_reservas_expiradas st now with
          reservas := (limpiar_reservas_expiradas st now).reservas ++
            [⟨numero, v, now, now + m⟩] },
       true, "Número reservado exitosamente") := by
  simp only [obtener_reservados_snd, limpiar_reservas_filter] at hr
  simp [reservar_numero, hv, hr]

theorem confirmar_of_not_reserved {st : Ledger} {now numero : Nat} {c tel v : String}
    (hr : (obtener_numeros_reservados st now).2 numero = none) :
    confirmar_venta st now numero c tel v =
      (limpiar_reservas_expiradas st now, false, "Número no está reservado") := by
  simp only [obtener_reservados_snd, limpiar_reservas_filter] at hr
  simp [confirmar_venta, hr]

theorem confirmar_of_not_owner {st : Ledger} {now numero : Nat} {c tel v : String}
    {r : ResRecord} (hr : (obtener_numeros_reservados st now).2 numero = some r)
    (hne : r.vendedor ≠ v) :
    confirmar_venta st now numero c tel v =
      (limpiar_reservas_expiradas st now, false, "No tienes la reserva de este número") := by
  simp only [obtener_reservados_snd, limpiar_reservas_filter] at hr
  simp [confirmar_venta, hr, hne]

theorem confirmar_of_owner {st : Ledger} {now numero : Nat} {c tel v : String}
    {r : ResRecord} (hr : (obtener_numeros_reservados st now).2 numero = some r)
    (hrv : r.vendedor = v) :
    confirmar_venta st now numero c tel v =
      (⟨(limpiar_reservas_expiradas st now).ventas ++ [⟨numero, c, tel, v, now, now⟩],
        removeFirstRes (limpiar_reservas_expiradas st now).reservas numero v⟩,
       true, "Venta confirmada exitosamente") := by
  simp only [obtener_reservados_snd, limpiar_reservas_filter] at hr
  simp [confirmar_venta, hr, hrv, cancelar_reserva]

/-! ## The engine invariant

What the sequential engine maintains, starting from an empty ledger:
sale numbers are nonzero, each number has at most one sale row, each
nonzero number has at most one reservation row, and no number has both a
sale row and a reservation row.  (Number `0` is special: the dict
comprehensions drop it, so `reservar_numero 0` always appends — but
`confirmar_venta 0` always fails, so no sale for `0` ever appears.) -/

structure Inv (st : Ledger) : Prop where
  sales_nonzero : ∀ s ∈ st.ventas, s.numero ≠ 0
  sales_unique : ∀ n, (salesFor st.ventas n).length ≤ 1
  res_unique : ∀ n, n ≠ 0 → (resFor st.reservas n).length ≤ 1
  not_both : ∀ n, salesFor st.ventas n ≠ [] → resFor st.reservas n = []

theorem inv_empty : Inv Ledger.empty := by
  constructor <;> simp [Ledger.empty, salesFor, resFor]

/-- The invariant survives keeping the sales and shrinking the
reservations to a sublist. -/
theorem inv_mono (st st' : Ledger) (hv : st'.ventas = st.ventas)
    (hr : st'.reservas.Sublist st.reservas) (h : Inv st) : Inv st' := by
  constructor
  · rw [hv]; exact h.sales_nonzero
  · intro n; rw [hv]; exact h.sales_unique n
  · intro n hn
    exact le_trans (List.Sublist.length_le (List.Sublist.filter _ hr)) (h.res_unique n hn)
  · intro n hs
    rw [hv] at hs
    have h0 := h.not_both n hs
    rw [resFor_eq_nil_iff] at h0 ⊢
    intro r hrm
    exact h0 r (hr.subset hrm)

theorem inv_limpiar (st : Ledger) (now : Nat) (h : Inv st) :
    Inv (limpiar_reservas_expiradas st now) :=
  inv_mono st (limpiar_reservas_expiradas st now) (limpiar_ventas st now)
    (by rw [limpiar_reservas_filter]; exact List.filter_sublist _) h

theorem inv_cancelar (st : Ledger) (numero : Nat) (v : String) (h : Inv st) :
    Inv (cancelar_reserva st numero v).1 :=
  inv_mono st (cancelar_reserva st numero v).1 rfl (removeFirstRes_sublist _ _ _) h

/-- If some sale row carries number `n`, the sold dict is not `none`. -/
theorem dictVendidos_ne_none_of_mem {l : List SaleRecord} {n : Nat} {s : SaleRecord}
    (hnz : ∀ s' ∈ l, s'.numero ≠ 0) (hs : s ∈ l) (hn : s.numero = n) :
    dictVendidos l n ≠ none := by
  have hn0 : n ≠ 0 := hn ▸ hnz s hs
  intro hnone
  exact (dictVendidos_none_iff hn0).mp hnone s hs hn

theorem inv_reservar (st : Ledger) (now numero : Nat) (v : String) (m : Nat)
    (h : Inv st) : Inv (reservar_numero st now numero v m).1 := by
  have h1 := inv_limpiar st now h
  by_cases hv : (obtener_numeros_vendidos st numero).isSome
  · rw [reservar_of_sold hv]
    exact h1
  · have hvn : obtener_numeros_vendidos st numero = none :=
      Option.not_isSome_iff_eq_none.mp hv
    cases hr : (obtener_numeros_reservados st now).2 numero with
    | some r =>
        rw [reservar_of_reserved hvn hr]
        exact h1
    | none =>
        rw [reservar_of_free hvn hr]
        simp only [obtener_reservados_snd] at hr
        constructor
        · exact h1.sales_nonzero
        · exact h1.sales_unique
        · intro n hn
          show (resFor ((limpiar_reservas_expiradas st now).reservas ++
            [⟨numero, v, now, now + m⟩]) n).length ≤ 1
          rw [resFor_append]
          by_cases hnn : numero = n
          · have hfree : resFor (limpiar_reservas_expiradas st now).reservas n = [] := by
              rw [resFor_eq_nil_iff]
              exact hnn ▸ (dictReservados_none_iff (hnn ▸ hn)).mp hr
            rw [hfree, resFor_singleton_of_eq hnn]
            simp
          · rw [resFor_singleton_of_ne hnn]
            simpa using h1.res_unique n hn
        · intro n hs
          show resFor ((limpiar_reservas_expiradas st now).reservas ++
            [⟨numero, v, now, now + m⟩]) n = []
          rw [resFor_append, List.append_eq_nil]
          refine ⟨h1.not_both n hs, resFor_singleton_of_ne ?_⟩
          intro hnn
          have hsale : ∃ s ∈ (limpiar_reservas_expiradas st now).ventas, s.numero = n := by
            by_contra hno
            push_neg at hno
            exact hs (salesFor_eq_nil_iff.mpr hno)
          obtain ⟨s, hsmem, hsn⟩ := hsale
          rw [limpiar_ventas] at hsmem
          exact dictVendidos_ne_none_of_mem h.sales_nonzero hsmem (hsn.trans hnn.symm) hvn

theorem inv_confirmar (st : Ledger) (now numero : Nat) (c tel v : String)
    (h : Inv st) : Inv (confirmar_venta st now numero c tel v).1 := by
  have h1 := inv_limpiar st now h
  cases hr : (obtener_numeros_reservados st now).2 numero with
  | none =>
      rw [confirmar_of_not_reserved hr]
      exact h1
  | some r =>
      by_cases hrv : r.vendedor = v
      · rw [confirmar_of_owner hr hrv]
        simp only [obtener_reservados_snd] at hr
        obtain ⟨hrmem, hrnum, hn0⟩ := dictReservados_some hr
        have hrres : r ∈ resFor (limpiar_reservas_expiradas st now).reservas numero :=
          mem_resFor.mpr ⟨hrmem, hrnum⟩
        have hone : resFor (limpiar_reservas_expiradas st now).reservas numero = [r] :=
          eq_singleton_of_mem_of_length_le_one hrres (h1.res_unique numero hn0)
        have hnosale : salesFor (limpiar_reservas_expiradas st now).ventas numero = [] := by
          by_contra hs
          rw [h1.not_both numero hs] at hone
          exact List.cons_ne_nil r [] hone.symm
        constructor
        · intro s hs
          rcases List.mem_append.mp hs with hold | hnew
          · exact h1.sales_nonzero s hold
          · simp at hnew
            rw [hnew]
            exact hn0
        · intro n
          show (salesFor ((limpiar_reservas_expiradas st now).ventas ++
            [⟨numero, c, tel, v, now, now⟩]) n).length ≤ 1
          rw [salesFor_append]
          by_cases hnn : numero = n
          · subst hnn
            rw [hnosale, salesFor_singleton_of_eq rfl]
            simp
          · rw [salesFor_singleton_of_ne hnn]
            simpa using h1.sales_unique n
        · intro n hn
          exact le_trans
            (List.Sublist.length_le (List.Sublist.filter _ (removeFirstRes_sublist _ _ _)))
            (h1.res_unique n hn)
        · intro n hs
          show resFor (removeFirstRes (limpiar_reservas_expiradas st now).reservas numero v) n = []
          by_cases hnn : numero = n
          · rw [← hnn]
            exact resFor_removeFirstRes hone hrv
          · rw [salesFor_append, salesFor_singleton_of_ne hnn, List.append_nil] at hs
            have h0 := h1.not_both n hs
            rw [resFor_eq_nil_iff] at h0 ⊢
            intro r' hr'
            exact h0 r' ((removeFirstRes_sublist _ _ _).subset hr')
      · rw [confirmar_of_not_owner hr hrv]
        exact h1

theorem inv_applyOp (st : Ledger) (op : Op) (h : Inv st) : Inv (applyOp st op) := by
  cases op with
  | reservar now numero v m => exact inv_reservar st now numero v m h
  | confirmar now numero c tel v => exact inv_confirmar st now numero c tel v h
  | cancelar numero v => exact inv_cancelar st numero v h
  | limpiar now => exact inv_limpiar st now h

theorem inv_applyOps (ops : List Op) (st : Ledger) (h : Inv st) :
    Inv (applyOps st ops) := by
  induction ops generalizing st with
  | nil => exact h
  | cons op ops ih => exact ih _ (inv_applyOp st op h)

/-- If every reservation row for `numero` has strictly passed its
expiry, the post-reap reservation dict has no entry for `numero`. -/
theorem dict_after_limpiar_none_of_expired {st : Ledger} {now numero : Nat}
    (h : ∀ r ∈ st.reservas, r.numero = numero → r.expira_en < now) :
    (obtener_numeros_reservados st now).2 numero = none := by
  by_cases hn : numero = 0
  · simp [hn]
  · simp only [obtener_reservados_snd, limpiar_reservas_filter]
    rw [dictReservados_none_iff hn]
    intro r hr hnum
    rw [List.mem_filter] at hr
    have h1 := h r hr.1 hnum
    have h2 := hr.2
    simp at h2
    omega

/-! ## The claims -/

/-- C1: starting from an empty ledger, after any finite sequence of
completed engine operations (`reservar_numero`, `confirmar_venta`,
`cancelar_reserva`, `limpiar_reservas_expiradas`), every ticket number
has at most one sale row in the `ventas` table — so the sold dict can
never report two distinct Sale owners for the same number. -/
theorem C1_sales_unique_from_empty (ops : List Op) (n : Nat) :
    ((applyOps Ledger.empty ops).ventas.filter (fun s => s.numero = n)).length ≤ 1 :=
  (inv_applyOps ops Ledger.empty inv_empty).sales_unique n

/-- C2: `reservar_numero` against a number with a sale row fails with
the AlreadySold message ("Número ya vendido"); against a number whose
live (post-reap) reservation dict entry belongs to another seller it
fails with the HeldByOther message naming that holder; and on every
failure the resulting ledger holds no reservation row that was not
already present (only the embedded reap ran). -/
theorem C2_reservar_rejects (st : Ledger) (now numero : Nat) (vendB : String) (m : Nat) :
    ((numero ≠ 0 → (∃ s ∈ st.ventas, s.numero = numero) →
      reservar_numero st now numero vendB m =
        (limpiar_reservas_expiradas st now, false, "Número ya vendido")) ∧
    (∀ r, obtener_numeros_vendidos st numero = none →
      (obtener_numeros_reservados st now).2 numero = some r → r.vendedor ≠ vendB →
      reservar_numero st now numero vendB m =
        (limpiar_reservas_expiradas st now, false,
         "Número reservado por " ++ r.vendedor)) ∧
    ((reservar_numero st now numero vendB m).2.1 = false →
      ∀ r' ∈ (reservar_numero st now numero vendB m).1.reservas, r' ∈ st.reservas)) := by
  refine ⟨?_, fun r hv hr _ => reservar_of_reserved hv hr, ?_⟩
  · intro hn0 ⟨s, hs, hsn⟩
    have hsome : (obtener_numeros_vendidos st numero).isSome := by
      cases hd : obtener_numeros_vendidos st numero with
      | none => exact absurd hsn ((dictVendidos_none_iff hn0).mp hd s hs)
      | some _ => rfl
    exact reservar_of_sold hsome
  · by_cases hv : (obtener_numeros_vendidos st numero).isSome
    · rw [reservar_of_sold hv]
      intro _ r' hr'
      rw [limpiar_reservas_filter, List.mem_filter] at hr'
      exact hr'.1
    · have hvn : obtener_numeros_vendidos st numero = none :=
        Option.not_isSome_iff_eq_none.mp hv
      cases hr : (obtener_numeros_reservados st now).2 numero with
      | some r =>
          rw [reservar_of_reserved hvn hr]
          intro _ r' hr'
          rw [limpiar_reservas_filter, List.mem_filter] at hr'
          exact hr'.1
      | none =>
          rw [reservar_of_free hvn hr]
          intro hfail
          simp at hfail

/-- Witness for C2: Reserve(3, A) at time 0 and then Reserve(3, B) at
time 2 (before expiry at 5): B's call fails naming the holder A, as the
theorem instantiates. -/
theorem C2_reservar_rejects_witness :
    reservar_numero (reservar_numero Ledger.empty 0 3 "A" 5).1 2 3 "B" 5 =
      (limpiar_reservas_expiradas (reservar_numero Ledger.empty 0 3 "A" 5).1 2, false,
       "Número reservado por " ++ "A") :=
  (C2_reservar_rejects (reservar_numero Ledger.empty 0 3 "A" 5).1 2 3 "B" 5).2.1
    ⟨3, "A", 0, 5⟩ (by decide) (by decide) (by decide)

/-- C3: `confirmar_venta` succeeds only on a live reservation of the
calling seller: with no entry in the post-reap reservation dict —
in particular when every reservation row for the number has strictly
passed its expiry — it fails with the NotReserved message; with a live
entry of a different seller it fails with the NotOwner message; and
every failure appends no sale row. -/
theorem C3_confirmar_rejects (st : Ledger) (now numero : Nat) (c tel vend : String) :
    (((obtener_numeros_reservados st now).2 numero = none →
      confirmar_venta st now numero c tel vend =
        (limpiar_reservas_expiradas st now, false, "Número no está reservado")) ∧
    (∀ r, (obtener_numeros_reservados st now).2 numero = some r → r.vendedor ≠ vend →
      confirmar_venta st now numero c tel vend =
        (limpiar_reservas_expiradas st now, false, "No tienes la reserva de este número")) ∧
    ((∀ r ∈ st.reservas, r.numero = numero → r.expira_en < now) →
      confirmar_venta st now numero c tel vend =
        (limpiar_reservas_expiradas st now, false, "Número no está reservado")) ∧
    ((confirmar_venta st now numero c tel vend).2.1 = true →
      ∃ r, (obtener_numeros_reservados st now).2 numero = some r ∧ r.vendedor = vend) ∧
    ((confirmar_venta st now numero c tel vend).2.1 = false →
      (confirmar_venta st now numero c tel vend).1.ventas = st.ventas)) := by
  refine ⟨fun h => confirmar_of_not_reserved h,
    fun r hr hne => confirmar_of_not_owner hr hne,
    fun h => confirmar_of_not_reserved (dict_after_limpiar_none_of_expired h), ?_, ?_⟩
  · intro hsucc
    cases hr : (obtener_numeros_reservados st now).2 numero with
    | none =>
        rw [confirmar_of_not_reserved hr] at hsucc
        simp at hsucc
    | some r =>
        by_cases hrv : r.vendedor = vend
        · exact ⟨r, rfl, hrv⟩
        · rw [confirmar_of_not_owner hr hrv] at hsucc
          simp at hsucc
  · intro hfail
    cases hr : (obtener_numeros_reservados st now).2 numero with
    | none =>
        rw [confirmar_of_not_reserved hr]
        simp
    | some r =>
        by_cases hrv : r.vendedor = vend
        · rw [confirmar_of_owner hr hrv] at hfail
          simp at hfail
        · rw [confirmar_of_not_owner hr hrv]
          simp

/-- Witness for C3: A reserved number 4 until time 3; at time 10 the
reservation has expired, and A's confirm fails with the NotReserved
message, appending no sale row. -/
theorem C3_confirmar_rejects_witness :
    confirmar_venta ⟨[], [⟨4, "A", 0, 3⟩]⟩ 10 4 "X" "600" "A" =
      (limpiar_reservas_expiradas ⟨[], [⟨4, "A", 0, 3⟩]⟩ 10, false,
       "Número no está reservado") :=
  (C3_confirmar_rejects ⟨[], [⟨4, "A", 0, 3⟩]⟩ 10 4 "X" "600" "A").2.2.1 (by decide)

/-- C4: on a successful confirm, the sale row is appended strictly
before the reservation row is deleted: the result is exactly
`cancelar_reserva` applied to the intermediate, sale-appended ledger;
that intermediate ledger already classifies the number as sold; the
final ledger's sales are the input sales plus the new row; and no path
of `confirmar_venta` ever removes an existing sale row. -/
theorem C4_confirmar_sale_before_delete (st : Ledger) (now numero : Nat)
    (c tel vend : String) :
    ((∀ r, (obtener_numeros_reservados st now).2 numero = some r → r.vendedor = vend →
      confirmar_venta st now numero c tel vend =
        ((cancelar_reserva
            ⟨(limpiar_reservas_expiradas st now).ventas ++ [⟨numero, c, tel, vend, now, now⟩],
             (limpiar_reservas_expiradas st now).reservas⟩ numero vend).1,
         true, "Venta confirmada exitosamente") ∧
      (obtener_numeros_vendidos
        ⟨(limpiar_reservas_expiradas st now).ventas ++ [⟨numero, c, tel, vend, now, now⟩],
         (limpiar_reservas_expiradas st now).reservas⟩ numero).isSome ∧
      (confirmar_venta st now numero c tel vend).1.ventas =
        st.ventas ++ [⟨numero, c, tel, vend, now, now⟩]) ∧
    (∀ s ∈ st.ventas, s ∈ (confirmar_venta st now numero c tel vend).1.ventas)) := by
  constructor
  · intro r hr hrv
    obtain ⟨-, -, hn0⟩ := dictReservados_some
      (by simpa [obtener_reservados_snd] using hr)
    refine ⟨?_, ?_, ?_⟩
    · rw [confirmar_of_owner hr hrv]
      simp [cancelar_reserva]
    · show (dictVendidos ((limpiar_reservas_expiradas st now).ventas ++
        [⟨numero, c, tel, vend, now, now⟩]) numero).isSome
      rw [dictVendidos_append_last hn0 rfl]
      rfl
    · rw [confirmar_of_owner hr hrv, limpiar_ventas]
  · intro s hs
    cases hr : (obtener_numeros_reservados st now).2 numero with
    | none =>
        rw [confirmar_of_not_reserved hr]
        simpa using hs
    | some r =>
        by_cases hrv : r.vendedor = vend
        · rw [confirmar_of_owner hr hrv]
          simp only [limpiar_ventas]
          exact List.mem_append_left _ hs
        · rw [confirmar_of_not_owner hr hrv]
          simpa using hs

/-- Witness for C4: with A holding number 3 until time 10, a confirm at
time 1 equals `cancelar_reserva` of the sale-appended intermediate
ledger, and succeeds. -/
theorem C4_confirmar_sale_before_delete_witness :
    confirmar_venta ⟨[], [⟨3, "A", 0, 10⟩]⟩ 1 3 "X" "600" "A" =
      ((cancelar_reserva ⟨[⟨3, "X", "600", "A", 1, 1⟩], [⟨3, "A", 0, 10⟩]⟩ 3 "A").1,
       true, "Venta confirmada exitosamente") := by
  have h := ((C4_confirmar_sale_before_delete ⟨[], [⟨3, "A", 0, 10⟩]⟩ 1 3 "X" "600" "A").1
    ⟨3, "A", 0, 10⟩ (by decide) (by decide)).1
  rw [h]
  rfl

/-- C5 counterexample: with seller A already holding number 3 (expiry
10), a second Reserve(3, A) at time 5 — before expiry — returns a
failure naming A, not the idempotent success the claim asserts. -/
theorem C5_counterexample :
    reservar_numero ⟨[], [⟨3, "A", 0, 10⟩]⟩ 5 3 "A" 5 =
      (⟨[], [⟨3, "A", 0, 10⟩]⟩, false, "Número reservado por " ++ "A") := by decide

/-- C5 (amended): a second Reserve by the seller who already holds the
live reservation is rejected exactly like any held number — the call
fails with the message naming that seller — while the existing
reservation row stands unchanged and no second reservation row is
appended. -/
theorem C5_same_seller_rereserve (st : Ledger) (now numero : Nat) (vend : String) (m : Nat) :
    ∀ r, obtener_numeros_vendidos st numero = none →
      (obtener_numeros_reservados st now).2 numero = some r → r.vendedor = vend →
      (reservar_numero st now numero vend m =
        (limpiar_reservas_expiradas st now, false, "Número reservado por " ++ vend) ∧
      r ∈ (reservar_numero st now numero vend m).1.reservas ∧
      ∀ r' ∈ (reservar_numero st now numero vend m).1.reservas, r' ∈ st.reservas) := by
  intro r hv hr hrv
  obtain ⟨hrmem, -, -⟩ := dictReservados_some
    (by simpa [obtener_reservados_snd] using hr)
  have heq := reservar_of_reserved (v := vend) (m := m) hv hr
  rw [hrv] at heq
  refine ⟨heq, ?_, ?_⟩
  · rw [heq]
    simpa only [limpiar_reservas_filter] using hrmem
  · rw [heq]
    intro r' hr'
    rw [limpiar_reservas_filter, List.mem_filter] at hr'
    exact hr'.1

/-- Witness for C5 (amended): the concrete re-reserve of the
counterexample, fully evaluated through the theorem. -/
theorem C5_same_seller_rereserve_witness :
    reservar_numero ⟨[], [⟨3, "A", 0, 10⟩]⟩ 5 3 "A" 5 =
      (limpiar_reservas_expiradas ⟨[], [⟨3, "A", 0, 10⟩]⟩ 5, false,
       "Número reservado por " ++ "A") ∧
    (⟨3, "A", 0, 10⟩ : ResRecord) ∈
      (reservar_numero ⟨[], [⟨3, "A", 0, 10⟩]⟩ 5 3 "A" 5).1.reservas := by
  have h := C5_same_seller_rereserve ⟨[], [⟨3, "A", 0, 10⟩]⟩ 5 3 "A" 5
    ⟨3, "A", 0, 10⟩ (by decide) (by decide) (by decide)
  exact ⟨h.1, h.2.1⟩

/-- C6 counterexample: a reservation whose expiry timestamp equals `now`
(expiry 5 at time 5) is *not* treated as absent — the reap deletes only
rows with `now > expira` — so it still occupies the reservation dict and
blocks another seller's Reserve, refuting the "less than or equal"
boundary of the claim. -/
theorem C6_counterexample :
    ((obtener_numeros_reservados ⟨[], [⟨1, "A", 0, 5⟩]⟩ 5).2 1).isSome = true ∧
    (reservar_numero ⟨[], [⟨1, "A", 0, 5⟩]⟩ 5 1 "B" 5).2.1 = false := by decide

/-- C6 (amended): a reservation row whose expiry timestamp is *strictly
less than* `now` is treated as absent by classification, and Reserve
against a number all of whose reservation rows are so expired succeeds
by timestamp comparison alone — the expired rows may still be physically
present in the input ledger, no prior reap pass is required. -/
theorem C6_expired_treated_absent (st : Ledger) (now numero : Nat) (vend : String) (m : Nat) :
    (∀ r ∈ st.reservas, r.numero = numero → r.expira_en < now) →
    ((obtener_numeros_reservados st now).2 numero = none ∧
    (obtener_numeros_vendidos st numero = none →
      reservar_numero st now numero vend m =
        ({ limpiar_reservas_expiradas st now with
            reservas := (limpiar_reservas_expiradas st now).reservas ++
              [⟨numero, vend, now, now + m⟩] },
         true, "Número reservado exitosamente"))) := by
  intro h
  have hd := dict_after_limpiar_none_of_expired h
  exact ⟨hd, fun hv => reservar_of_free hv hd⟩

/-- Witness for C6 (amended): number 2 is only occupied by a reservation
that expired at 3; at time 7 it is absent from the dict and B's Reserve
succeeds. -/
theorem C6_expired_treated_absent_witness :
    (obtener_numeros_reservados ⟨[], [⟨2, "A", 0, 3⟩]⟩ 7).2 2 = none ∧
    (reservar_numero ⟨[], [⟨2, "A", 0, 3⟩]⟩ 7 2 "B" 5).2.1 = true := by
  have h := C6_expired_treated_absent ⟨[], [⟨2, "A", 0, 3⟩]⟩ 7 2 "B" 5 (by decide)
  refine ⟨h.1, ?_⟩
  rw [h.2 (by decide)]

/-- C7 (code-bug exhibit): the ledger holds a sale for number 5, but the
worksheet reads fail.  The `except: return {}` fallback yields empty
dicts, so number 5 is reported *available* by the availability check and
`reservar_numero` proceeds to a successful append — failing open —
whereas the same checks against a successful read exclude number 5 and
reject the Reserve. -/
theorem C7_fail_open_on_read_failure :
    obtener_numeros_vendidos_readFails 5 = none ∧
    5 ∈ numeros_disponibles obtener_numeros_vendidos_readFails
        (obtener_numeros_reservados_readFails ⟨[⟨5, "X", "600", "A", 0, 0⟩], []⟩).2 ∧
    (reservar_numero_readFails ⟨[⟨5, "X", "600", "A", 0, 0⟩], []⟩ 1 5 "B" 5).2.1 = true ∧
    5 ∉ numeros_disponibles (obtener_numeros_vendidos ⟨[⟨5, "X", "600", "A", 0, 0⟩], []⟩)
        ((obtener_numeros_reservados ⟨[⟨5, "X", "600", "A", 0, 0⟩], []⟩ 1).2) ∧
    (reservar_numero ⟨[⟨5, "X", "600", "A", 0, 0⟩], []⟩ 1 5 "B" 5).2.1 = false := by
  decide

/-- C8 counterexample: obtaining the reserved classification does not
leave the Reservations table as it was — the embedded reap physically
deletes the expired row ⟨1, A, 0, 3⟩ at time 5. -/
theorem C8_counterexample :
    (obtener_numeros_reservados ⟨[], [⟨1, "A", 0, 3⟩]⟩ 5).1 ≠
      (⟨[], [⟨1, "A", 0, 3⟩]⟩ : Ledger) := by decide

/-- C8 (amended): the classification values are deterministic functions
of the ledger snapshot and `now`, and obtaining them never touches the
Sales table; but obtaining the reserved classification reaps as a side
effect — the Reservations table is replaced by exactly its rows whose
expiry has not strictly passed. -/
theorem C8_classification_reaps (st : Ledger) (now : Nat) :
    (obtener_numeros_reservados st now).1.ventas = st.ventas ∧
    (obtener_numeros_reservados st now).1.reservas =
      st.reservas.filter (fun r => now ≤ r.expira_en) ∧
    (obtener_numeros_reservados st now).2 =
      dictReservados (st.reservas.filter (fun r => now ≤ r.expira_en)) ∧
    obtener_numeros_vendidos st = dictVendidos st.ventas := by
  refine ⟨limpiar_ventas st now, limpiar_reservas_filter st now, ?_, rfl⟩
  rw [obtener_reservados_snd, limpiar_reservas_filter]

/-- C9 counterexample: Cancel(7, A) against a reservation held by B
returns no typed failure at all — the Python function body has no
`return` statement, so the caller receives `None`, indistinguishable
from the `None` of a successful cancel. -/
theorem C9_counterexample :
    (cancelar_reserva ⟨[], [⟨7, "B", 0, 10⟩]⟩ 7 "A").2 = none ∧
    (cancelar_reserva ⟨[], [⟨7, "B", 0, 10⟩]⟩ 7 "A").2 =
      (cancelar_reserva ⟨[], [⟨7, "B", 0, 10⟩]⟩ 7 "B").2 := ⟨rfl, rfl⟩

/-- C9 (amended): Cancel with a mismatched seller or an absent
reservation is a silent no-op: the ledger is left unchanged, Cancel
never deletes a sale row nor another seller's reservation row — but it
returns no success/failure indication (always `None`), rather than the
typed NotOwner / NotReserved failure the claim asserts. -/
theorem C9_cancel_mismatch_noop (st : Ledger) (numero : Nat) (vend : String) :
    (((∀ r ∈ st.reservas, ¬(r.numero = numero ∧ r.vendedor = vend)) →
      (cancelar_reserva st numero vend).1 = st) ∧
    (cancelar_reserva st numero vend).1.ventas = st.ventas ∧
    (∀ r ∈ st.reservas, r.vendedor ≠ vend →
      r ∈ (cancelar_reserva st numero vend).1.reservas) ∧
    (cancelar_reserva st numero vend).2 = none) := by
  refine ⟨?_, rfl, ?_, rfl⟩
  · intro h
    show ({ st with reservas := removeFirstRes st.reservas numero vend } : Ledger) = st
    rw [removeFirstRes_of_no_match h]
  · intro r hr hne
    exact mem_removeFirstRes_of_ne_vendedor hr hne

/-- Witness for C9 (amended): Cancel(7, A) against B's reservation
leaves the ledger — including B's row — untouched. -/
theorem C9_cancel_mismatch_noop_witness :
    (cancelar_reserva ⟨[], [⟨7, "B", 0, 10⟩]⟩ 7 "A").1 =
      (⟨[], [⟨7, "B", 0, 10⟩]⟩ : Ledger) ∧
    (⟨7, "B", 0, 10⟩ : ResRecord) ∈
      (cancelar_reserva ⟨[], [⟨7, "B", 0, 10⟩]⟩ 7 "A").1.reservas := by
  have h := C9_cancel_mismatch_noop ⟨[], [⟨7, "B", 0, 10⟩]⟩ 7 "A"
  exact ⟨h.1 (by decide), h.2.2.1 ⟨7, "B", 0, 10⟩ (by decide) (by decide)⟩

/-- `confirmar_venta_deleteFails` on the owner path: the sale row is
appended, the swallowed delete leaves the reservation rows as reaped,
and the call still reports success. -/
theorem confirmar_deleteFails_of_owner {st : Ledger} {now numero : Nat}
    (c tel : String) {v : String} {r : ResRecord}
    (hr : (obtener_numeros_reservados st now).2 numero = some r)
    (hrv : r.vendedor = v) :
    confirmar_venta_deleteFails st now numero c tel v =
      (⟨(limpiar_reservas_expiradas st now).ventas ++ [⟨numero, c, tel, v, now, now⟩],
        (limpiar_reservas_expiradas st now).reservas⟩,
       true, "Venta confirmada exitosamente") := by
  simp only [obtener_reservados_snd, limpiar_reservas_filter] at hr
  simp [confirmar_venta_deleteFails, hr, hrv, cancelar_reserva_deleteFails]

/-- C10: if, after the ownership checks passed and the sale row was
appended, the reservation delete fails, the exception is swallowed and
confirm still returns success with its success message; the sale row is
in the ledger, the stale reservation row remains, and at any later read
the grid classifies the number as Sold, because the sale dict is
consulted before the reservation dict. -/
theorem C10_confirm_survives_delete_failure (st : Ledger) (now now2 numero : Nat)
    (c tel vend : String) :
    ∀ r, (obtener_numeros_reservados st now).2 numero = some r → r.vendedor = vend →
      ((confirmar_venta_deleteFails st now numero c tel vend).2.1 = true ∧
      (confirmar_venta_deleteFails st now numero c tel vend).2.2 =
        "Venta confirmada exitosamente" ∧
      (⟨numero, c, tel, vend, now, now⟩ : SaleRecord) ∈
        (confirmar_venta_deleteFails st now numero c tel vend).1.ventas ∧
      r ∈ (confirmar_venta_deleteFails st now numero c tel vend).1.reservas ∧
      estado_numero
        (obtener_numeros_vendidos (confirmar_venta_deleteFails st now numero c tel vend).1)
        ((obtener_numeros_reservados
            (confirmar_venta_deleteFails st now numero c tel vend).1 now2).2)
        numero = Estado.vendido) := by
  intro r hr hrv
  obtain ⟨hrmem, -, hn0⟩ := dictReservados_some
    (by simpa [obtener_reservados_snd] using hr)
  have heq := confirmar_deleteFails_of_owner c tel hr hrv
  rw [heq]
  refine ⟨rfl, rfl, List.mem_append_right _ (List.mem_singleton_self _), ?_, ?_⟩
  · simpa only [limpiar_reservas_filter] using hrmem
  · have hsold : (dictVendidos ((limpiar_reservas_expiradas st now).ventas ++
        [⟨numero, c, tel, vend, now, now⟩]) numero) =
        some ⟨numero, c, tel, vend, now, now⟩ :=
      dictVendidos_append_last hn0 rfl
    show estado_numero (dictVendidos ((limpiar_reservas_expiradas st now).ventas ++
      [⟨numero, c, tel, vend, now, now⟩])) _ numero = Estado.vendido
    rw [estado_numero, hsold]
    rfl

/-- Witness for C10: A holds number 3 until time 10; at time 1 a confirm
whose delete fails still succeeds, keeps both rows, and at time 50 the
grid shows number 3 as sold. -/
theorem C10_confirm_survives_delete_failure_witness :
    (confirmar_venta_deleteFails ⟨[], [⟨3, "A", 0, 10⟩]⟩ 1 3 "X" "600" "A").2.1 = true ∧
    (⟨3, "A", 0, 10⟩ : ResRecord) ∈
      (confirmar_venta_deleteFails ⟨[], [⟨3, "A", 0, 10⟩]⟩ 1 3 "X" "600" "A").1.reservas ∧
    estado_numero
      (obtener_numeros_vendidos
        (confirmar_venta_deleteFails ⟨[], [⟨3, "A", 0, 10⟩]⟩ 1 3 "X" "600" "A").1)
      ((obtener_numeros_reservados
          (confirmar_venta_deleteFails ⟨[], [⟨3, "A", 0, 10⟩]⟩ 1 3 "X" "600" "A").1 50).2)
      3 = Estado.vendido := by
  have h := C10_confirm_survives_delete_failure ⟨[], [⟨3, "A", 0, 10⟩]⟩ 1 50 3 "X" "600" "A"
    ⟨3, "A", 0, 10⟩ (by decide) (by decide)
  exact ⟨h.1, h.2.2.2.1, h.2.2.2.2⟩

end Rifa
